import Mathlib

/-!
Verification development for the gg-mcp repository.

The embedded code:
* `packages/gg_api_core/src/gg_api_core/utils.py` — `get_gitguardian_client`,
  the environment-driven auth-selection factory;
* `scripts/publish_to_mcp_registry.py` — `validate_server_json`,
  `check_prerequisites`, `login_github`, `publish_to_registry`, `main`;
* `scripts/publish_to_pypi.py` — `check_prerequisites`, `clean_dist`,
  `build_package`, `upload_to_pypi`, `main`.

Modelling conventions: environment variables and interactive answers are
fields of an explicit oracle record; every external command the scripts run
is recorded in a trace of `SAction`s together with the exit code the oracle
assigns to it; Python exceptions are `Except`, Python truthiness is made
explicit; parsed JSON documents are `JValue`s.
-/

/-- Python `str.lower()` modelled characterwise with `Char.toLower`
(they agree on ASCII data, which is all the embedded code compares). -/
def str_lower (s : String) : String := ⟨s.data.map Char.toLower⟩

/-- Python `str.strip()`: drop whitespace from both ends. -/
def str_strip (s : String) : String :=
  ⟨((s.data.dropWhile Char.isWhitespace).reverse.dropWhile Char.isWhitespace).reverse⟩

/-- Python truthiness of an `os.environ.get` result: `None` and `""` are falsy. -/
def pyTruthyStr : Option String → Bool
  | none => false
  | some s => !(s == "")

/-- The client object built by `gg_api_core.client.GitGuardianClient`.
Modelled from the spec: the class lives in `gg_api_core/client.py`, which is
not among the given source files; per the spec it is an opaque collaborator,
so it is modelled as a record of the constructor arguments `utils.py` passes
(`api_key`, `api_url`, `use_oauth`, with `use_oauth` defaulting to `false`
when the call site omits it, matching the spec's key-authenticated versus
OAuth-flagged distinction), plus the `server_name` attribute the factory
attaches after construction. -/
structure GitGuardianClient where
  api_key : Option String
  api_url : Option String
  use_oauth : Bool
  server_name : Option String
deriving DecidableEq, Repr

/-- The environment variables `get_gitguardian_client` reads
(`none` = the variable is not set). -/
structure Env where
  GITGUARDIAN_AUTH_METHOD : Option String
  GITGUARDIAN_API_URL : Option String
  GITGUARDIAN_API_KEY : Option String
deriving DecidableEq, Repr

/-- The `ValueError` message raised for token auth without a key
(utils.py line 51). -/
def keyRequiredMsg : String :=
  "GITGUARDIAN_API_KEY environment variable must be set for token authentication"

/-- The `ValueError` message raised for an unsupported auth method
(utils.py line 79). -/
def unsupportedMsg (auth_method : String) : String :=
  "Unsupported authentication method: " ++ auth_method ++
    ". Supported methods: 'token', 'web'"

/-- `get_gitguardian_client` (utils.py lines 17-79): select the auth method
from `GITGUARDIAN_AUTH_METHOD` (default `"web"`, lowercased), and either
build a key-authenticated client, build an OAuth client, or raise a
`ValueError` (`Except.error`). -/
def get_gitguardian_client (env : Env) (server_name : Option String) :
    Except String GitGuardianClient :=
  let auth_method := str_lower (env.GITGUARDIAN_AUTH_METHOD.getD "web")
  let api_url := env.GITGUARDIAN_API_URL
  if auth_method = "token" then
    let api_key := env.GITGUARDIAN_API_KEY
    if pyTruthyStr api_key then
      Except.ok
        { api_key := api_key, api_url := api_url, use_oauth := false,
          server_name := server_name }
    else
      Except.error keyRequiredMsg
  else if auth_method = "web" then
    Except.ok
      { api_key := none, api_url := api_url, use_oauth := true,
        server_name := server_name }
  else
    Except.error (unsupportedMsg auth_method)

/-- A parsed JSON document, as `json.load` returns it (a Python dict has
unique keys, so an association list represents one). -/
inductive JValue where
  | jnull
  | jbool (b : Bool)
  | jnum (n : Int)
  | jstr (s : String)
  | jarr (elems : List JValue)
  | jobj (fields : List (String × JValue))

/-- Python `v == "s"` for a JSON value: only an equal string compares equal. -/
def JValue.eqStr (v : JValue) (s : String) : Bool :=
  match v with
  | .jstr t => t == s
  | _ => false

/-- Python truthiness of a JSON value. -/
def pyTruthy : JValue → Bool
  | .jnull => false
  | .jbool b => b
  | .jnum n => !(n == 0)
  | .jstr s => !(s == "")
  | .jarr xs => !xs.isEmpty
  | .jobj fs => !fs.isEmpty

/-- Whether `needle` matches at the start of `hay`. -/
def matchesAt (needle hay : List Char) : Bool :=
  match needle, hay with
  | [], _ => true
  | _ :: _, [] => false
  | a :: ns, b :: hs => a == b && matchesAt ns hs

/-- Whether `needle` occurs contiguously in `hay` (Python substring `in`). -/
def hasSub (needle hay : List Char) : Bool :=
  matchesAt needle hay ||
    match hay with
    | [] => false
    | _ :: hs => hasSub needle hs

/-- Python `key in v` for a JSON value: key membership for a dict, element
equality for a list, substring for a string; `in` on a number, boolean or
`None` raises `TypeError` (`Except.error`). -/
def pyIn (key : String) : JValue → Except Unit Bool
  | .jobj fields => Except.ok (fields.any fun p => p.1 == key)
  | .jarr xs => Except.ok (xs.any fun v => v.eqStr key)
  | .jstr s => Except.ok (hasSub key.data s.data)
  | _ => Except.error ()

/-- Python `v[key]` with a string key: dict lookup (`KeyError` when absent);
on any other value a `TypeError`/`KeyError` (`Except.error`). -/
def pyGetItem (v : JValue) (key : String) : Except Unit JValue :=
  match v with
  | .jobj fields =>
    match fields.lookup key with
    | some x => Except.ok x
    | none => Except.error ()
  | _ => Except.error ()

/-- Python `v.get(key)`: defined on dicts only (`AttributeError` otherwise,
`Except.error`); returns `None` (`jnull`) for an absent key. -/
def pyDictGet (v : JValue) (key : String) : Except Unit JValue :=
  match v with
  | .jobj fields => Except.ok ((fields.lookup key).getD .jnull)
  | _ => Except.error ()

/-- Python `v[0]`: first element of a list (`IndexError` when empty), first
character of a string; a dict with string keys raises `KeyError`, any other
value `TypeError` (all `Except.error`). -/
def pyGetIdx0 (v : JValue) : Except Unit JValue :=
  match v with
  | .jarr [] => Except.error ()
  | .jarr (x :: _) => Except.ok x
  | .jstr s =>
    match s.data with
    | [] => Except.error ()
    | c :: _ => Except.ok (.jstr ⟨[c]⟩)
  | _ => Except.error ()

/-- The `required_fields` list of `validate_server_json`
(publish_to_mcp_registry.py line 78). -/
def required_fields : List String := ["name", "description", "version", "packages"]

/-- The `for field in required_fields` loop (lines 79-82): first missing
field returns `False`; a `TypeError` from `in` propagates as an exception. -/
def checkRequired (config : JValue) : List String → Except Unit Bool
  | [] => Except.ok true
  | f :: rest =>
    match pyIn f config with
    | Except.error e => Except.error e
    | Except.ok false => Except.ok false
    | Except.ok true => checkRequired config rest

/-- The body of `validate_server_json` after a successful `json.load`
(publish_to_mcp_registry.py lines 75-110): the required-field loop, the
summary display subscripts, the `config.get("packages")` block, and the
PyPI existence probe. The result is the returned boolean together with
`some identifier` when the body reaches the `curl` probe for that package
identifier (the probe's exit status is read into `returncode` and then
discarded by the source); a raised exception is `Except.error`. -/
def validate_core (config : JValue) : Except Unit (Bool × Option JValue) := do
  let ok1 ← checkRequired config required_fields
  if !ok1 then
    return (false, none)
  let _ ← pyGetItem config "name"
  let _ ← pyGetItem config "description"
  let _ ← pyGetItem config "version"
  let pkgs ← pyDictGet config "packages"
  if pyTruthy pkgs then
    let pkgsItem ← pyGetItem config "packages"
    let package ← pyGetIdx0 pkgsItem
    let _ ← pyDictGet package "registryType"
    let _ ← pyDictGet package "identifier"
    let _ ← pyDictGet package "version"
    let reg ← pyDictGet package "registryType"
    if reg.eqStr "pypi" then
      let identifier ← pyDictGet package "identifier"
      return (true, some identifier)
    else
      return (true, none)
  else
    return (true, none)

/-- One external effect of a script: an invoked command together with the
exit code the oracle assigns to it, a `shutil.rmtree`, or the `curl` PyPI
existence probe for a package identifier. -/
inductive SAction where
  | run (cmd : List String) (code : Int)
  | rmtree (dir : String)
  | curlProbe (identifier : JValue) (code : Int)

/-- `validate_server_json` (publish_to_mcp_registry.py lines 70-114):
`none` models a `json.JSONDecodeError` from `json.load`; any exception in
the body is caught and yields `False`. Returns the boolean result and the
trace of external commands the call runs (`curl_code` is the exit status
the environment gives the probe; the source discards it). -/
def validate_server_json (doc : Option JValue) (curl_code : Int) :
    Bool × List SAction :=
  match doc with
  | none => (false, [])
  | some config =>
    match validate_core config with
    | Except.error _ => (false, [])
    | Except.ok (b, none) => (b, [])
    | Except.ok (b, some identifier) => (b, [SAction.curlProbe identifier curl_code])

/-- Everything the environment decides for one run of publish_to_pypi.py:
exit codes of the commands it may invoke, the relevant environment
variables, the interactive answers, and whether `dist/` exists. -/
structure PypiOracle where
  which_uv : Int
  dist_exists : Bool
  build_code : Int
  confirm : String
  PYPI_TOKEN : Option String
  TEST_PYPI_TOKEN : Option String
  token_input : String
  twine_code : Int

/-- `check_prerequisites` of publish_to_pypi.py (lines 41-53): `which uv`
must succeed. -/
def check_prerequisites_pypi (o : PypiOracle) : Bool × List SAction :=
  (o.which_uv == 0, [SAction.run ["which", "uv"] o.which_uv])

/-- `clean_dist` (lines 56-61): remove `dist/` when it exists. -/
def clean_dist (o : PypiOracle) : List SAction :=
  if o.dist_exists then [SAction.rmtree "dist"] else []

/-- `build_package` (lines 64-83): `uv build` must succeed. -/
def build_package (o : PypiOracle) : Bool × List SAction :=
  (o.build_code == 0, [SAction.run ["uv", "build"] o.build_code])

/-- The twine command `upload_to_pypi` assembles (lines 98-105). -/
def twine_cmd (test : Bool) : List String :=
  ["uv", "run", "twine", "upload"] ++
    (if test then ["--repository", "testpypi"] else []) ++ ["dist/*"]

/-- `upload_to_pypi` (lines 86-134): take the token from `TEST_PYPI_TOKEN`
or `PYPI_TOKEN` (by mode), else prompt for one (stripped; empty aborts),
then run twine against TestPyPI or PyPI by mode. -/
def upload_to_pypi (test : Bool) (o : PypiOracle) : Bool × List SAction :=
  let tokenEnv := if test then o.TEST_PYPI_TOKEN else o.PYPI_TOKEN
  if pyTruthyStr tokenEnv then
    (o.twine_code == 0, [SAction.run (twine_cmd test) o.twine_code])
  else
    let token := str_strip o.token_input
    if token == "" then (false, [])
    else (o.twine_code == 0, [SAction.run (twine_cmd test) o.twine_code])

/-- `main` of publish_to_pypi.py (lines 137-182): prerequisites, clean,
build, confirmation prompt (stripped and lowercased; only `"y"` continues,
anything else exits 0), then the upload; any failed step exits 1. -/
def pypi_main (test_mode : Bool) (o : PypiOracle) : Int × List SAction :=
  let pre := check_prerequisites_pypi o
  if pre.1 then
    let t2 := pre.2 ++ clean_dist o ++ (build_package o).2
    if (build_package o).1 then
      if !(str_lower (str_strip o.confirm) == "y") then (0, t2)
      else
        let up := upload_to_pypi test_mode o
        if up.1 then (0, t2 ++ up.2) else (1, t2 ++ up.2)
    else (1, t2)
  else (1, pre.2)

/-- Everything the environment decides for one run of
publish_to_mcp_registry.py. -/
structure RegistryOracle where
  which_mcp : Int
  version_code : Int
  server_json_exists : Bool
  server_json : Option JValue
  curl_code : Int
  confirm : String
  login_confirm : String
  login_code : Int
  publish_code : Int

/-- `check_prerequisites` of publish_to_mcp_registry.py (lines 41-67):
`which mcp-publisher` must succeed; `mcp-publisher --version` is run and
its exit status only gates a print; `server.json` must exist. -/
def check_prerequisites_registry (o : RegistryOracle) : Bool × List SAction :=
  let t0 := [SAction.run ["which", "mcp-publisher"] o.which_mcp]
  if o.which_mcp == 0 then
    let t1 := t0 ++ [SAction.run ["mcp-publisher", "--version"] o.version_code]
    if o.server_json_exists then (true, t1) else (false, t1)
  else (false, t0)

/-- `check_github_auth` (lines 117-126): prints advice and returns `True`. -/
def check_github_auth : Bool := true

/-- `login_github` (lines 129-146): its own confirmation prompt (stripped,
lowercased, only `"y"` proceeds), then `mcp-publisher login github`. -/
def login_github (o : RegistryOracle) : Bool × List SAction :=
  if !(str_lower (str_strip o.login_confirm) == "y") then (false, [])
  else (o.login_code == 0, [SAction.run ["mcp-publisher", "login", "github"] o.login_code])

/-- `publish_to_registry` (lines 149-173): in dry-run mode print and return
`True` without running anything; otherwise run `mcp-publisher publish`. -/
def publish_to_registry (dry_run : Bool) (o : RegistryOracle) : Bool × List SAction :=
  if dry_run then (true, [])
  else (o.publish_code == 0, [SAction.run ["mcp-publisher", "publish"] o.publish_code])

/-- `main` of publish_to_mcp_registry.py (lines 176-249): prerequisites,
manifest validation, auth advice, then (outside dry-run) the confirmation
prompt and the GitHub login, whose failure is only warned about, and
finally the publish step; failed prerequisite, validation or publish exits
1, a declined confirmation exits 0. -/
def registry_main (dry_run : Bool) (o : RegistryOracle) : Int × List SAction :=
  let pre := check_prerequisites_registry o
  if pre.1 then
    let val := validate_server_json o.server_json o.curl_code
    let t1 := pre.2 ++ val.2
    if val.1 then
      if check_github_auth then
        if !dry_run && !(str_lower (str_strip o.confirm) == "y") then (0, t1)
        else
          let t2 := if dry_run then t1 else t1 ++ (login_github o).2
          let pub := publish_to_registry dry_run o
          let t3 := t2 ++ pub.2
          if pub.1 then (0, t3) else (1, t3)
      else (1, t1)
    else (1, t1)
  else (1, pre.2)

/-- Whether some invocation of exactly `cmd` occurs in a trace. -/
def traceHasRun (cmd : List String) (tr : List SAction) : Bool :=
  tr.any fun a =>
    match a with
    | .run c _ => c == cmd
    | _ => false

/-- Whether an invocation of `cmd` that exited with `code` occurs in a trace. -/
def traceHasRunCode (cmd : List String) (code : Int) (tr : List SAction) : Bool :=
  tr.any fun a =>
    match a with
    | .run c k => c == cmd && k == code
    | _ => false

/-- Every command invoked in the trace exited with status 0. -/
def traceRunsOk (tr : List SAction) : Bool :=
  tr.all fun a =>
    match a with
    | .run _ k => k == 0
    | _ => true

/-- The commands whose failure publish_to_mcp_registry.py actually turns
into a nonzero exit: the prerequisite probe and the publish itself. -/
def registryCritical (cmd : List String) : Bool :=
  cmd == ["which", "mcp-publisher"] || cmd == ["mcp-publisher", "publish"]

/-- Every critical command invoked in the trace exited with status 0. -/
def traceCriticalOk (tr : List SAction) : Bool :=
  tr.all fun a =>
    match a with
    | .run c k => !registryCritical c || k == 0
    | _ => true

/-- Every twine invocation in the trace targets the testpypi repository. -/
def twineTargetsTest (tr : List SAction) : Bool :=
  tr.all fun a =>
    match a with
    | .run c _ => !(c.contains "twine") || c.contains "testpypi"
    | _ => true

theorem char_toNat_ofNat (n : Nat) (h : n.isValidChar) : (Char.ofNat n).toNat = n := by
  simp only [Char.ofNat, h, dif_pos, Char.ofNatAux, Char.toNat, UInt32.toNat]
  rfl

theorem toNat_toLower (c : Char) :
    c.toLower.toNat = if c.toNat ≥ 65 ∧ c.toNat ≤ 90 then c.toNat + 32 else c.toNat := by
  unfold Char.toLower
  by_cases h : c.toNat ≥ 65 ∧ c.toNat ≤ 90
  · rw [if_pos h, if_pos h]
    exact char_toNat_ofNat _ (Or.inl (by omega))
  · rw [if_neg h, if_neg h]

theorem char_toLower_idem (c : Char) : c.toLower.toLower = c.toLower := by
  have hd := toNat_toLower c
  have hn : ¬(c.toLower.toNat ≥ 65 ∧ c.toLower.toNat ≤ 90) := by
    by_cases h : c.toNat ≥ 65 ∧ c.toNat ≤ 90
    · rw [if_pos h] at hd
      omega
    · rw [if_neg h] at hd
      rw [hd]
      exact h
  show (if c.toLower.toNat ≥ 65 ∧ c.toLower.toNat ≤ 90 then Char.ofNat (c.toLower.toNat + 32)
      else c.toLower) = c.toLower
  rw [if_neg hn]

theorem str_lower_idem (s : String) : str_lower (str_lower s) = str_lower s := by
  unfold str_lower
  simp only [List.map_map]
  congr 1
  exact List.map_congr_left fun c _ => char_toLower_idem c

/-- The effective auth method the factory dispatches on (utils.py line 31). -/
def effective_auth_method (env : Env) : String :=
  str_lower (env.GITGUARDIAN_AUTH_METHOD.getD "web")

theorem get_client_token_missing (env : Env) (sn : Option String)
    (hm : effective_auth_method env = "token")
    (hk : pyTruthyStr env.GITGUARDIAN_API_KEY = false) :
    get_gitguardian_client env sn = Except.error keyRequiredMsg := by
  simp only [get_gitguardian_client, effective_auth_method] at hm ⊢
  rw [hm, if_pos rfl, hk]
  simp

theorem get_client_token_ok (env : Env) (sn : Option String) (k : String)
    (hm : effective_auth_method env = "token")
    (hk : env.GITGUARDIAN_API_KEY = some k) (hne : k ≠ "") :
    get_gitguardian_client env sn =
      Except.ok ⟨some k, env.GITGUARDIAN_API_URL, false, sn⟩ := by
  simp only [get_gitguardian_client, effective_auth_method] at hm ⊢
  rw [hm, if_pos rfl, hk]
  simp [pyTruthyStr, hne]

theorem get_client_web (env : Env) (sn : Option String)
    (hm : effective_auth_method env = "web") :
    get_gitguardian_client env sn =
      Except.ok ⟨none, env.GITGUARDIAN_API_URL, true, sn⟩ := by
  simp only [get_gitguardian_client, effective_auth_method] at hm ⊢
  rw [hm]
  simp

theorem get_client_unsupported (env : Env) (sn : Option String)
    (h1 : effective_auth_method env ≠ "token")
    (h2 : effective_auth_method env ≠ "web") :
    get_gitguardian_client env sn =
      Except.error (unsupportedMsg (effective_auth_method env)) := by
  simp only [get_gitguardian_client, effective_auth_method] at h1 h2 ⊢
  rw [if_neg h1, if_neg h2]

theorem get_client_congr (env1 env2 : Env) (sn : Option String)
    (hm : effective_auth_method env1 = effective_auth_method env2)
    (hu : env1.GITGUARDIAN_API_URL = env2.GITGUARDIAN_API_URL)
    (hk : env1.GITGUARDIAN_API_KEY = env2.GITGUARDIAN_API_KEY) :
    get_gitguardian_client env1 sn = get_gitguardian_client env2 sn := by
  simp only [get_gitguardian_client, effective_auth_method] at hm ⊢
  rw [hm, hu, hk]

/-- C1: for auth method "token", `get_gitguardian_client` fails with the
configuration `ValueError` when `GITGUARDIAN_API_KEY` is absent, for any
server name; when the key is present (set, and non-empty — `utils.py`
tests the variable with Python truthiness, and an empty value is treated
exactly like an absent one), it succeeds and returns a key-authenticated
client carrying the supplied server name as its `server_name` attribute. -/
theorem C1_token_key_contract (env : Env) (sn : Option String)
    (hm : env.GITGUARDIAN_AUTH_METHOD = some "token") :
    (env.GITGUARDIAN_API_KEY = none →
      get_gitguardian_client env sn = Except.error keyRequiredMsg) ∧
    (∀ k, env.GITGUARDIAN_API_KEY = some k → k ≠ "" →
      get_gitguardian_client env sn =
        Except.ok ⟨some k, env.GITGUARDIAN_API_URL, false, sn⟩) := by
  have hme : effective_auth_method env = "token" := by
    unfold effective_auth_method
    rw [hm]
    rfl
  refine ⟨fun hk => get_client_token_missing env sn hme ?_,
    fun k hk hne => get_client_token_ok env sn k hme hk hne⟩
  rw [hk]
  rfl

theorem C1_token_key_contract_witness :
    get_gitguardian_client ⟨some "token", none, none⟩ none = Except.error keyRequiredMsg ∧
    get_gitguardian_client ⟨some "token", some "https://api.example.com", some "abcd1234"⟩
        (some "secrets") =
      Except.ok ⟨some "abcd1234", some "https://api.example.com", false, some "secrets"⟩ :=
  ⟨(C1_token_key_contract ⟨some "token", none, none⟩ none rfl).1 rfl,
   (C1_token_key_contract ⟨some "token", some "https://api.example.com", some "abcd1234"⟩
      (some "secrets") rfl).2 "abcd1234" rfl (by decide)⟩

/-- C2: for every selector whose effective (lowercased, defaulted) value is
neither "token" nor "web", `get_gitguardian_client` fails with an error
whose message names that unsupported method. -/
theorem C2_unsupported_method (env : Env) (sn : Option String)
    (h1 : effective_auth_method env ≠ "token")
    (h2 : effective_auth_method env ≠ "web") :
    get_gitguardian_client env sn =
      Except.error (unsupportedMsg (effective_auth_method env)) :=
  get_client_unsupported env sn h1 h2

theorem C2_unsupported_method_witness :
    get_gitguardian_client ⟨some "basic", none, none⟩ none =
      Except.error (unsupportedMsg "basic") :=
  C2_unsupported_method ⟨some "basic", none, none⟩ none (by decide) (by decide)

/-- C6: for auth method "web" (including the default when the selector is
unset), `get_gitguardian_client` succeeds and returns an OAuth-flagged
client (`use_oauth = true`, `api_key = none`) carrying the supplied server
name, whatever `GITGUARDIAN_API_KEY` holds. -/
theorem C6_web_oauth (env : Env) (sn : Option String)
    (hm : effective_auth_method env = "web") :
    get_gitguardian_client env sn =
      Except.ok ⟨none, env.GITGUARDIAN_API_URL, true, sn⟩ :=
  get_client_web env sn hm

theorem C6_web_oauth_witness :
    get_gitguardian_client ⟨some "web", none, some "a-key-that-is-ignored"⟩ (some "scan") =
      Except.ok ⟨none, none, true, some "scan"⟩ :=
  C6_web_oauth ⟨some "web", none, some "a-key-that-is-ignored"⟩ (some "scan") (by decide)

/-- C8: the auth-method selector is compared case-insensitively — any value
of `GITGUARDIAN_AUTH_METHOD` behaves exactly like its lowercased form, and
the unsupported-method error names the lowercased value. -/
theorem C8_selector_case_insensitive (env : Env) (v : String) (sn : Option String) :
    (get_gitguardian_client { env with GITGUARDIAN_AUTH_METHOD := some v } sn =
      get_gitguardian_client { env with GITGUARDIAN_AUTH_METHOD := some (str_lower v) } sn) ∧
    (str_lower v ≠ "token" → str_lower v ≠ "web" →
      get_gitguardian_client { env with GITGUARDIAN_AUTH_METHOD := some v } sn =
        Except.error (unsupportedMsg (str_lower v))) := by
  have he : effective_auth_method { env with GITGUARDIAN_AUTH_METHOD := some v } =
      str_lower v := rfl
  have he2 : effective_auth_method { env with GITGUARDIAN_AUTH_METHOD := some (str_lower v) } =
      str_lower v := str_lower_idem v
  constructor
  · exact get_client_congr _ _ sn (he.trans he2.symm) rfl rfl
  · intro h1 h2
    have := get_client_unsupported { env with GITGUARDIAN_AUTH_METHOD := some v } sn
      (by rw [he]; exact h1) (by rw [he]; exact h2)
    rw [he] at this
    exact this

theorem C8_selector_case_insensitive_witness :
    get_gitguardian_client ⟨some "TOKEN", none, some "abcd1234"⟩ none =
      get_gitguardian_client ⟨some "token", none, some "abcd1234"⟩ none ∧
    get_gitguardian_client ⟨some "Basic", none, none⟩ none =
      Except.error (unsupportedMsg "basic") :=
  ⟨(C8_selector_case_insensitive ⟨none, none, some "abcd1234"⟩ "TOKEN" none).1,
   (C8_selector_case_insensitive ⟨none, none, none⟩ "Basic" none).2
      (by decide) (by decide)⟩

/-- C9: for token auth, a `GITGUARDIAN_API_KEY` set to the empty string is
treated exactly like an absent variable — the factory raises the same
configuration `ValueError` and never builds a client from an empty key. -/
theorem C9_empty_key_like_absent (env : Env) (sn : Option String)
    (hm : effective_auth_method env = "token") :
    get_gitguardian_client { env with GITGUARDIAN_API_KEY := some "" } sn =
      Except.error keyRequiredMsg ∧
    get_gitguardian_client { env with GITGUARDIAN_API_KEY := none } sn =
      Except.error keyRequiredMsg :=
  ⟨get_client_token_missing _ sn hm rfl, get_client_token_missing _ sn hm rfl⟩

theorem C9_empty_key_like_absent_witness :
    get_gitguardian_client ⟨some "token", none, some ""⟩ none =
      Except.error keyRequiredMsg ∧
    get_gitguardian_client ⟨some "token", none, none⟩ none =
      Except.error keyRequiredMsg :=
  C9_empty_key_like_absent ⟨some "token", none, some "overwritten"⟩ none (by decide)

theorem exc_bind_ok {α β ε : Type} (a : α) (f : α → Except ε β) :
    (Except.ok a >>= f) = f a := rfl

theorem exc_bind_error {α β ε : Type} (e : ε) (f : α → Except ε β) :
    ((Except.error e : Except ε α) >>= f) = Except.error e := rfl

theorem exc_pure {α ε : Type} (a : α) : (pure a : Except ε α) = Except.ok a := rfl

/-- C7: the PyPI-existence probe's outcome is dead: `validate_server_json`
returns the same verdict whatever exit status the `curl` invocation gets
(the source reads the status into `returncode` and never uses it). -/
theorem C7_probe_result_discarded (doc : Option JValue) (c1 c2 : Int) :
    (validate_server_json doc c1).1 = (validate_server_json doc c2).1 := by
  cases doc with
  | none => rfl
  | some config =>
    unfold validate_server_json
    rcases h : validate_core config with e | ⟨b, _ | oid⟩ <;> simp [h]

theorem checkRequired_ok_of (config : JValue) (fs : List String)
    (h : ∀ f ∈ fs, pyIn f config = Except.ok true) :
    checkRequired config fs = Except.ok true := by
  induction fs with
  | nil => rfl
  | cons f rest ih =>
    have hf := h f (by simp)
    simp only [checkRequired, hf]
    exact ih fun g hg => h g (by simp [hg])

theorem checkRequired_all (config : JValue) (fs : List String)
    (h : checkRequired config fs = Except.ok true) :
    ∀ f ∈ fs, pyIn f config = Except.ok true := by
  induction fs with
  | nil => simp
  | cons f rest ih =>
    intro g hg
    rcases hp : pyIn f config with e | b
    · simp only [checkRequired, hp] at h
      cases h
    · cases b
      · simp only [checkRequired, hp] at h
        simp at h
      · simp only [checkRequired, hp] at h
        rcases List.mem_cons.mp hg with hgf | hgr
        · rw [hgf]
          exact hp
        · exact ih h g hgr

theorem lookup_of_any (fields : List (String × JValue)) (f : String)
    (h : (fields.any fun p => p.1 == f) = true) : ∃ v, fields.lookup f = some v := by
  induction fields with
  | nil => simp at h
  | cons p rest ih =>
    rcases p with ⟨k, v⟩
    by_cases hk : f = k
    · subst hk
      exact ⟨v, by simp [List.lookup_cons]⟩
    · have hkf : (k == f) = false := beq_eq_false_iff_ne.mpr fun hkf => hk hkf.symm
      have h2 : (rest.any fun p => p.1 == f) = true := by
        simpa [List.any_cons, hkf] using h
      obtain ⟨w, hw⟩ := ih h2
      have hfk : (f == k) = false := beq_eq_false_iff_ne.mpr hk
      exact ⟨w, by simp [List.lookup_cons, hfk, hw]⟩

theorem validate_true_checkRequired (config : JValue) (c : Int)
    (h : (validate_server_json (some config) c).1 = true) :
    checkRequired config required_fields = Except.ok true := by
  rcases hc : checkRequired config required_fields with e | b
  · have hcore : validate_core config = Except.error e := by
      unfold validate_core
      rw [hc]
      rfl
    simp [validate_server_json, hcore] at h
  · cases b
    · have hcore : validate_core config = Except.ok (false, none) := by
        unfold validate_core
        rw [hc]
        rfl
      simp [validate_server_json, hcore] at h
    · rfl

/-- A well-formed JSON manifest containing all four required fields whose
`packages` value is a non-empty list of non-objects. -/
def c5cfg : JValue :=
  .jobj [("name", .jstr "gg-mcp"), ("description", .jstr "GitGuardian MCP server"),
    ("version", .jstr "1.0.0"), ("packages", .jarr [.jnum 0])]

/-- C5 counterexample: `c5cfg` is well-formed JSON and every required field
is present (`checkRequired` succeeds with `true`), yet `validate_server_json`
returns failure — the display block evaluates `config["packages"][0].get(...)`,
the integer element raises `AttributeError`, and the catch-all turns it into
`False`. The claim says every such manifest is accepted. -/
theorem C5_counterexample :
    checkRequired c5cfg required_fields = Except.ok true ∧
    (validate_server_json (some c5cfg) 200).1 = false :=
  ⟨rfl, rfl⟩

/-- C5 (amended): `validate_server_json` rejects a manifest missing any of
`name`, `description`, `version`, `packages`; it accepts a well-formed JSON
object manifest containing all four fields provided its `packages` value is
falsy (absent from truthiness, e.g. the empty list) or is a list whose first
element is an object — when `packages` is truthy but its first element
cannot be read as a dict, the raised exception is caught and validation
fails despite all four fields being present. -/
theorem C5_manifest_validation (fields : List (String × JValue)) (c : Int) :
    (∀ f, f ∈ required_fields → (fields.any fun p => p.1 == f) = false →
      (validate_server_json (some (JValue.jobj fields)) c).1 = false) ∧
    ((∀ f ∈ required_fields, (fields.any fun p => p.1 == f) = true) →
      (pyTruthy ((fields.lookup "packages").getD JValue.jnull) = false ∨
        ∃ pf rest, fields.lookup "packages" = some (.jarr (.jobj pf :: rest))) →
      (validate_server_json (some (JValue.jobj fields)) c).1 = true) := by
  constructor
  · intro f hf hmiss
    rw [← Bool.not_eq_true]
    intro htrue
    have hchk := validate_true_checkRequired _ _ htrue
    have hin := checkRequired_all _ _ hchk f hf
    have : pyIn f (JValue.jobj fields) = Except.ok false := by
      simp [pyIn, hmiss]
    rw [this] at hin
    simp at hin
  · intro hall hp
    obtain ⟨vn, hn⟩ := lookup_of_any fields "name" (hall "name" (by simp [required_fields]))
    obtain ⟨vd, hd2⟩ :=
      lookup_of_any fields "description" (hall "description" (by simp [required_fields]))
    obtain ⟨vv, hv⟩ :=
      lookup_of_any fields "version" (hall "version" (by simp [required_fields]))
    have hchk : checkRequired (JValue.jobj fields) required_fields = Except.ok true :=
      checkRequired_ok_of _ _ fun f hf => by simp [pyIn, hall f hf]
    rcases hp with hfal | ⟨pf, rest, hpk⟩
    · have hcore : validate_core (JValue.jobj fields) = Except.ok (true, none) := by
        unfold validate_core
        rw [hchk]
        simp only [exc_bind_ok, Bool.not_true, if_neg]
        simp [pyGetItem, pyDictGet, hn, hd2, hv, exc_bind_ok, hfal]
      simp [validate_server_json, hcore]
    · have htr : pyTruthy ((fields.lookup "packages").getD JValue.jnull) = true := by
        rw [hpk]
        rfl
      have hcore : ∃ x, validate_core (JValue.jobj fields) = Except.ok (true, x) := by
        refine ⟨if ((pf.lookup "registryType").getD JValue.jnull).eqStr "pypi" = true
          then some ((pf.lookup "identifier").getD JValue.jnull) else none, ?_⟩
        have htr2 : pyTruthy (JValue.jarr (JValue.jobj pf :: rest)) = true := rfl
        unfold validate_core
        rw [hchk]
        simp only [exc_bind_ok, Bool.not_true, if_neg]
        simp [pyGetItem, pyDictGet, pyGetIdx0, hn, hd2, hv, hpk, exc_bind_ok, exc_pure, htr, htr2]
        by_cases hr : ((pf.lookup "registryType").getD JValue.jnull).eqStr "pypi" = true <;>
          simp [hr, exc_pure]
      obtain ⟨x, hx⟩ := hcore
      rcases x with _ | id <;> simp [validate_server_json, hx]

/-- The fields of a manifest missing `version`. -/
def c5missing : List (String × JValue) :=
  [("name", .jstr "gg-mcp"), ("description", .jstr "GitGuardian MCP server"),
    ("packages", .jarr [])]

/-- The fields of a complete manifest with a PyPI package entry. -/
def c5good : List (String × JValue) :=
  [("name", .jstr "gg-mcp"), ("description", .jstr "GitGuardian MCP server"),
    ("version", .jstr "1.0.0"),
    ("packages", .jarr [.jobj [("registryType", .jstr "pypi"),
      ("identifier", .jstr "gg-mcp"), ("version", .jstr "1.0.0")]])]

theorem C5_manifest_validation_witness :
    (validate_server_json (some (JValue.jobj c5missing)) 200).1 = false ∧
    (validate_server_json (some (JValue.jobj c5good)) 200).1 = true :=
  ⟨(C5_manifest_validation c5missing 200).1 "version" (by decide) (by decide),
   (C5_manifest_validation c5good 200).2 (by decide)
     (Or.inr ⟨[("registryType", .jstr "pypi"), ("identifier", .jstr "gg-mcp"),
       ("version", .jstr "1.0.0")], [], rfl⟩)⟩

theorem traceHasRun_append (cmd : List String) (a b : List SAction) :
    traceHasRun cmd (a ++ b) = (traceHasRun cmd a || traceHasRun cmd b) :=
  List.any_append

theorem traceRunsOk_append (a b : List SAction) :
    traceRunsOk (a ++ b) = (traceRunsOk a && traceRunsOk b) :=
  List.all_append

theorem traceCriticalOk_append (a b : List SAction) :
    traceCriticalOk (a ++ b) = (traceCriticalOk a && traceCriticalOk b) :=
  List.all_append

theorem twineTargetsTest_append (a b : List SAction) :
    twineTargetsTest (a ++ b) = (twineTargetsTest a && twineTargetsTest b) :=
  List.all_append

theorem validate_trace_no_runs (doc : Option JValue) (c : Int) (cmd : List String) :
    traceHasRun cmd (validate_server_json doc c).2 = false := by
  rcases doc with _ | config
  · rfl
  · unfold validate_server_json
    rcases h : validate_core config with e | ⟨b, _ | id⟩ <;> simp [h, traceHasRun]

theorem validate_trace_criticalOk (doc : Option JValue) (c : Int) :
    traceCriticalOk (validate_server_json doc c).2 = true := by
  rcases doc with _ | config
  · rfl
  · unfold validate_server_json
    rcases h : validate_core config with e | ⟨b, _ | id⟩ <;> simp [h, traceCriticalOk]

theorem check_prereq_registry_eq (o : RegistryOracle)
    (h : (check_prerequisites_registry o).1 = true) :
    check_prerequisites_registry o =
      (true, [SAction.run ["which", "mcp-publisher"] o.which_mcp,
        SAction.run ["mcp-publisher", "--version"] o.version_code]) := by
  unfold check_prerequisites_registry at h ⊢
  cases h1 : (o.which_mcp == 0) <;> cases h2 : o.server_json_exists <;>
    simp [h1, h2] at h ⊢

theorem clean_dist_no_runs (o : PypiOracle) (cmd : List String) :
    traceHasRun cmd (clean_dist o) = false := by
  unfold clean_dist
  split <;> rfl

theorem clean_dist_runs_ok (o : PypiOracle) : traceRunsOk (clean_dist o) = true := by
  unfold clean_dist
  split <;> rfl

theorem clean_dist_twine_ok (o : PypiOracle) : twineTargetsTest (clean_dist o) = true := by
  unfold clean_dist
  split <;> rfl

theorem upload_cases (test : Bool) (o : PypiOracle) :
    upload_to_pypi test o = (false, []) ∨
    upload_to_pypi test o =
      (o.twine_code == 0, [SAction.run (twine_cmd test) o.twine_code]) := by
  unfold upload_to_pypi
  by_cases h1 : pyTruthyStr (if test then o.TEST_PYPI_TOKEN else o.PYPI_TOKEN) = true
  · right
    simp [h1]
  · by_cases h2 : (str_strip o.token_input == "") = true
    · left
      simp [h1, h2]
    · right
      simp [h1, h2]

theorem login_cases (o : RegistryOracle) :
    login_github o = (false, []) ∨
    login_github o =
      (o.login_code == 0, [SAction.run ["mcp-publisher", "login", "github"] o.login_code]) := by
  unfold login_github
  split_ifs <;> simp

/-- An environment for publish_to_pypi.py in which every preceding check
passes (uv installed, build succeeds, operator confirms, a TestPyPI token
is set) but the twine upload exits 1. -/
def c3orP : PypiOracle :=
  { which_uv := 0, dist_exists := false, build_code := 0, confirm := "y",
    PYPI_TOKEN := none, TEST_PYPI_TOKEN := some "test-token",
    token_input := "", twine_code := 1 }

/-- C3 counterexample: with `--test`, publish_to_pypi.py still invokes the
real network upload (`uv run twine upload --repository testpypi dist/*`)
and exits 1 when that upload fails, although every preceding check passed —
test mode is not the no-network always-successful dry run the claim
describes. -/
theorem C3_counterexample :
    (pypi_main true c3orP).1 = 1 ∧
    traceHasRun (twine_cmd true) (pypi_main true c3orP).2 = true :=
  ⟨rfl, rfl⟩

/-- C3 (amended): `publish_to_mcp_registry.py --dry-run` invokes neither
`mcp-publisher publish` nor `mcp-publisher login github` and exits 0
whenever the preceding checks pass; `publish_to_pypi.py --test` does not
suppress the upload — it substitutes the alternate target, so any twine
invocation it performs is directed at testpypi. -/
theorem C3_dry_run_modes :
    (∀ o : RegistryOracle, (check_prerequisites_registry o).1 = true →
      (validate_server_json o.server_json o.curl_code).1 = true →
      (registry_main true o).1 = 0 ∧
      traceHasRun ["mcp-publisher", "publish"] (registry_main true o).2 = false ∧
      traceHasRun ["mcp-publisher", "login", "github"] (registry_main true o).2 = false) ∧
    (∀ o : PypiOracle, twineTargetsTest (pypi_main true o).2 = true) := by
  constructor
  · intro o h1 h2
    have hpre := check_prereq_registry_eq o h1
    have heq : registry_main true o =
        (0, [SAction.run ["which", "mcp-publisher"] o.which_mcp,
          SAction.run ["mcp-publisher", "--version"] o.version_code] ++
          (validate_server_json o.server_json o.curl_code).2) := by
      simp [registry_main, hpre, h2, publish_to_registry, check_github_auth]
    refine ⟨by rw [heq], ?_, ?_⟩ <;>
      rw [heq, traceHasRun_append, validate_trace_no_runs] <;> rfl
  · intro o
    have hup : twineTargetsTest (upload_to_pypi true o).2 = true := by
      rcases upload_cases true o with hu | hu <;> rw [hu] <;> rfl
    unfold pypi_main
    by_cases h1 : (check_prerequisites_pypi o).1 = true <;>
      by_cases h2 : (build_package o).1 = true <;>
      by_cases h3 : (str_lower (str_strip o.confirm) == "y") = true <;>
      by_cases h4 : (upload_to_pypi true o).1 = true <;>
      simp [h1, h2, h3, h4, twineTargetsTest_append, clean_dist_twine_ok, hup] <;>
      first
      | rfl
      | exact ⟨rfl, rfl⟩

/-- A dry-run registry environment whose preceding checks pass. -/
def c3orR : RegistryOracle :=
  { which_mcp := 0, version_code := 0, server_json_exists := true,
    server_json := some (.jobj [("name", .jstr "gg-mcp"),
      ("description", .jstr "GitGuardian MCP server"), ("version", .jstr "1.0.0"),
      ("packages", .jarr [.jobj [("registryType", .jstr "pypi"),
        ("identifier", .jstr "gg-mcp"), ("version", .jstr "1.0.0")]])]),
    curl_code := 7, confirm := "", login_confirm := "", login_code := 0,
    publish_code := 0 }

theorem C3_dry_run_modes_witness :
    ((registry_main true c3orR).1 = 0 ∧
      traceHasRun ["mcp-publisher", "publish"] (registry_main true c3orR).2 = false ∧
      traceHasRun ["mcp-publisher", "login", "github"] (registry_main true c3orR).2 = false) ∧
    twineTargetsTest (pypi_main true c3orP).2 = true :=
  ⟨C3_dry_run_modes.1 c3orR rfl rfl, C3_dry_run_modes.2 c3orP⟩

theorem traceRunsOk_single (cmd : List String) (k : Int) :
    traceRunsOk [SAction.run cmd k] = (k == 0) := by
  show ((k == 0) && true) = (k == 0)
  exact Bool.and_true _

theorem traceRunsOk_cons (a : SAction) (tr : List SAction) :
    traceRunsOk (a :: tr) =
      ((match a with
        | SAction.run _ k => k == 0
        | _ => true) && traceRunsOk tr) := rfl

theorem traceRunsOk_nil : traceRunsOk [] = true := rfl

theorem traceCriticalOk_nil : traceCriticalOk [] = true := rfl

theorem traceCriticalOk_cons (a : SAction) (tr : List SAction) :
    traceCriticalOk (a :: tr) =
      ((match a with
        | SAction.run c k => !registryCritical c || k == 0
        | _ => true) && traceCriticalOk tr) := rfl

theorem registryCritical_which : registryCritical ["which", "mcp-publisher"] = true := rfl

theorem registryCritical_version :
    registryCritical ["mcp-publisher", "--version"] = false := rfl

theorem registryCritical_login :
    registryCritical ["mcp-publisher", "login", "github"] = false := rfl

theorem registryCritical_publish :
    registryCritical ["mcp-publisher", "publish"] = true := rfl

theorem check_prereq_registry_which (o : RegistryOracle)
    (h : (check_prerequisites_registry o).1 = true) : (o.which_mcp == 0) = true := by
  unfold check_prerequisites_registry at h
  cases hW : (o.which_mcp == 0) <;> simp [hW] at h ⊢

theorem traceCriticalOk_prereq (k v : Int) :
    traceCriticalOk [SAction.run ["which", "mcp-publisher"] k,
      SAction.run ["mcp-publisher", "--version"] v] = (k == 0) := by
  show ((k == 0) && true) = (k == 0)
  exact Bool.and_true _

theorem traceCriticalOk_login (k : Int) :
    traceCriticalOk [SAction.run ["mcp-publisher", "login", "github"] k] = true := rfl

theorem traceCriticalOk_publish (k : Int) :
    traceCriticalOk [SAction.run ["mcp-publisher", "publish"] k] = (k == 0) := by
  show ((k == 0) && true) = (k == 0)
  exact Bool.and_true _

/-- A registry environment whose version probe fails (exit 3) while every
command the script actually gates on succeeds. -/
def c4or : RegistryOracle :=
  { which_mcp := 0, version_code := 3, server_json_exists := true,
    server_json := some (.jobj [("name", .jstr "gg-mcp"),
      ("description", .jstr "GitGuardian MCP server"), ("version", .jstr "1.0.0"),
      ("packages", .jarr [])]),
    curl_code := 0, confirm := "y", login_confirm := "y", login_code := 0,
    publish_code := 0 }

/-- C4 counterexample: `mcp-publisher --version` exits 3 — a nonzero exit
from an invoked external tool — yet publish_to_mcp_registry.py continues
and terminates with status 0, because the version probe's status only
gates a print. -/
theorem C4_counterexample :
    traceHasRunCode ["mcp-publisher", "--version"] 3 (registry_main false c4or).2 = true ∧
    (registry_main false c4or).1 = 0 :=
  ⟨rfl, rfl⟩

/-- C4 (amended): in publish_to_pypi.py every nonzero exit of an invoked
tool makes the script exit nonzero (exit 0 implies every invoked command
exited 0); in publish_to_mcp_registry.py this holds only for the
prerequisite probe (`which mcp-publisher`) and `mcp-publisher publish` —
nonzero exits of the version probe, the PyPI curl probe and the GitHub
login are tolerated. -/
theorem C4_nonzero_exit_propagation :
    (∀ (t : Bool) (o : PypiOracle), (pypi_main t o).1 = 0 →
      traceRunsOk (pypi_main t o).2 = true) ∧
    (∀ (d : Bool) (o : RegistryOracle), (registry_main d o).1 = 0 →
      traceCriticalOk (registry_main d o).2 = true) := by
  constructor
  · intro t o h
    unfold pypi_main at h ⊢
    by_cases h1 : (check_prerequisites_pypi o).1 = true
    · have hw : (o.which_uv == 0) = true := h1
      by_cases h2 : (build_package o).1 = true
      · have hb : (o.build_code == 0) = true := h2
        by_cases h3 : (str_lower (str_strip o.confirm) == "y") = true
        · rcases upload_cases t o with hu | hu
          · rw [hu] at h
            simp [h1, h2, h3] at h
          · by_cases h4 : (o.twine_code == 0) = true
            · rw [hu]
              simp [h1, h2, h3, h4, traceRunsOk_append, traceRunsOk_single,
                traceRunsOk_cons, traceRunsOk_nil, clean_dist_runs_ok,
                check_prerequisites_pypi, build_package, hw, hb]
            · rw [hu] at h
              simp [h1, h2, h3, h4] at h
        · simp [h1, h2, h3, traceRunsOk_append, traceRunsOk_single,
            traceRunsOk_cons, traceRunsOk_nil, clean_dist_runs_ok,
            check_prerequisites_pypi, build_package, hw, hb]
      · simp [h1, h2] at h
    · simp [h1] at h
  · intro d o h
    unfold registry_main at h ⊢
    by_cases g1 : (check_prerequisites_registry o).1 = true
    · have hW := check_prereq_registry_which o g1
      have hpre := check_prereq_registry_eq o g1
      by_cases g2 : (validate_server_json o.server_json o.curl_code).1 = true
      · by_cases g3 : (!d && !(str_lower (str_strip o.confirm) == "y")) = true
        · simp [g1, g2, g3, check_github_auth, hpre, traceCriticalOk_append,
            traceCriticalOk_cons, registryCritical_which, registryCritical_version,
            validate_trace_criticalOk, hW]
        · by_cases hd : d = true
          · simp [g1, g2, g3, hd, check_github_auth, publish_to_registry, hpre,
              traceCriticalOk_append, traceCriticalOk_cons, registryCritical_which,
              registryCritical_version, validate_trace_criticalOk, hW]
          · have hdf : d = false := by
              cases d
              · rfl
              · exact absurd rfl hd
            have hy : (str_lower (str_strip o.confirm) == "y") = true := by
              cases hc : (str_lower (str_strip o.confirm) == "y")
              · exact absurd (by simp [hdf, hc]) g3
              · rfl
            rcases login_cases o with hl | hl <;>
              by_cases g5 : (o.publish_code == 0) = true <;>
              rw [hl] at h ⊢ <;>
              simp [g1, g2, hdf, hy, g5, check_github_auth, publish_to_registry, hpre,
                traceCriticalOk_append, traceCriticalOk_cons, registryCritical_which,
                registryCritical_version, registryCritical_login, registryCritical_publish,
                traceCriticalOk_nil, validate_trace_criticalOk, hW] at h ⊢
      · simp [g1, g2] at h
    · simp [g1] at h

/-- A pypi-script environment in which every invoked command succeeds and
the operator confirms, so the script exits 0. -/
def c4orP : PypiOracle :=
  { which_uv := 0, dist_exists := true, build_code := 0, confirm := "y",
    PYPI_TOKEN := some "pypi-token", TEST_PYPI_TOKEN := none,
    token_input := "", twine_code := 0 }

theorem C4_nonzero_exit_propagation_witness :
    traceRunsOk (pypi_main false c4orP).2 = true ∧
    traceCriticalOk (registry_main false c4or).2 = true :=
  ⟨C4_nonzero_exit_propagation.1 false c4orP rfl,
   C4_nonzero_exit_propagation.2 false c4or rfl⟩

/-- C10: in both scripts, any confirmation answer other than exactly `"y"`
after stripping and lowercasing makes the script exit 0 with the external
upload/publish command never invoked. -/
theorem C10_decline_confirmation :
    (∀ (t : Bool) (o : PypiOracle), (check_prerequisites_pypi o).1 = true →
      (build_package o).1 = true →
      (str_lower (str_strip o.confirm) == "y") = false →
      (pypi_main t o).1 = 0 ∧
      traceHasRun (twine_cmd t) (pypi_main t o).2 = false) ∧
    (∀ o : RegistryOracle, (check_prerequisites_registry o).1 = true →
      (validate_server_json o.server_json o.curl_code).1 = true →
      (str_lower (str_strip o.confirm) == "y") = false →
      (registry_main false o).1 = 0 ∧
      traceHasRun ["mcp-publisher", "publish"] (registry_main false o).2 = false) := by
  constructor
  · intro t o h1 h2 h3
    have heq : pypi_main t o =
        (0, (check_prerequisites_pypi o).2 ++ clean_dist o ++ (build_package o).2) := by
      unfold pypi_main
      simp [h1, h2, h3]
    rw [heq]
    refine ⟨rfl, ?_⟩
    simp [traceHasRun_append, clean_dist_no_runs]
    exact ⟨rfl, rfl⟩
  · intro o g1 g2 g3
    have hpre := check_prereq_registry_eq o g1
    have heq : registry_main false o =
        (0, [SAction.run ["which", "mcp-publisher"] o.which_mcp,
          SAction.run ["mcp-publisher", "--version"] o.version_code] ++
          (validate_server_json o.server_json o.curl_code).2) := by
      unfold registry_main
      simp [hpre, g2, g3, check_github_auth]
    rw [heq]
    refine ⟨rfl, ?_⟩
    rw [traceHasRun_append, validate_trace_no_runs]
    rfl

/-- A pypi-script environment whose checks pass but whose operator answers
`" N "` at the confirmation prompt. -/
def c10orP : PypiOracle :=
  { which_uv := 0, dist_exists := false, build_code := 0, confirm := " N ",
    PYPI_TOKEN := some "pypi-token", TEST_PYPI_TOKEN := none,
    token_input := "", twine_code := 0 }

/-- A registry-script environment whose checks pass but whose operator
answers `"no"` at the confirmation prompt. -/
def c10orR : RegistryOracle :=
  { which_mcp := 0, version_code := 0, server_json_exists := true,
    server_json := some (.jobj [("name", .jstr "gg-mcp"),
      ("description", .jstr "GitGuardian MCP server"), ("version", .jstr "1.0.0"),
      ("packages", .jarr [])]),
    curl_code := 0, confirm := "no", login_confirm := "y", login_code := 0,
    publish_code := 0 }

theorem C10_decline_confirmation_witness :
    ((pypi_main false c10orP).1 = 0 ∧
      traceHasRun (twine_cmd false) (pypi_main false c10orP).2 = false) ∧
    ((registry_main false c10orR).1 = 0 ∧
      traceHasRun ["mcp-publisher", "publish"] (registry_main false c10orR).2 = false) :=
  ⟨C10_decline_confirmation.1 false c10orP rfl rfl rfl,
   C10_decline_confirmation.2 c10orR rfl rfl rfl⟩
